import Mathlib

/-!
Verification of the pvCORE observation core: a shallow embedding of
`base/frequencies.py` and `base/observation.py` (plus the pieces of the data
model that those modules reference), with theorems settling the specified
properties of the index-consistency engine, validation, serialization and
cache invalidation.

Python floats are modelled as rationals (no arithmetic beyond comparison and
copying occurs in the embedded code paths), Python ints as `Int`, raised
exceptions as `Except PyError`.
-/

namespace PvCore

/-- Kinds of Python exceptions raised by the embedded code. -/
inductive PyError where
  | valueError
  | indexError
  | typeError
  | attributeError
deriving DecidableEq, Repr

instance {ε α : Type} [DecidableEq ε] [DecidableEq α] : DecidableEq (Except ε α) := by
  intro a b
  cases a <;> cases b <;>
    first
      | exact .isFalse (by intro h; exact Except.noConfusion h)
      | rename_i x y
        exact if h : x = y then .isTrue (by rw [h]) else
          .isFalse (by intro hc; cases hc; exact h rfl)

/-- Bind on a successful `Except` computation just continues. -/
theorem except_ok_bind {ε α β : Type} (a : α) (f : α → Except ε β) :
    (Except.ok a : Except ε α) >>= f = f a := rfl

/-- Python `list.pop(i)`: a negative index counts from the end; an index
outside `[-len, len)` raises `IndexError`; otherwise the element at the
normalized position is removed.  The popped element itself is discarded by
every call site embedded here, so only the remaining list is returned. -/
def pyPop {α : Type} (xs : List α) (i : Int) : Except PyError (List α) :=
  let n : Int := (xs.length : Int)
  let j : Int := if i < 0 then i + n else i
  if 0 ≤ j ∧ j < n then .ok (xs.eraseIdx j.toNat) else .error .indexError

/-- Python `list.insert(i, x)`: the index is clamped into `[0, len]`
(negative indices count from the end first), then `x` is placed at that
position; `insert` never raises. -/
def pyInsert {α : Type} (xs : List α) (i : Int) (x : α) : List α :=
  let n : Int := (xs.length : Int)
  let j : Int := if i < 0 then max (i + n) 0 else min i n
  xs.take j.toNat ++ x :: xs.drop j.toNat

/-- Lookup in a Python dict modelled as an insertion-ordered association
list. -/
def dGet {α : Type} (m : List (String × α)) (k : String) : Option α :=
  (m.find? (fun p => p.1 = k)).map Prod.snd

/-- Python `d[k] = v` on a dict modelled as an insertion-ordered association
list: replace in place when the key exists, append otherwise. -/
def dSet {α : Type} (m : List (String × α)) (k : String) (v : α) : List (String × α) :=
  if m.any (fun p => p.1 = k) then m.map (fun p => if p.1 = k then (k, v) else p)
  else m ++ [(k, v)]

/-- Modelled from the spec: `utils.validation.check_non_negative` (the utils
module is not part of the provided sources); per the error taxonomy it raises
an invalid-argument error immediately when the value is negative. -/
def check_non_negative (x : Rat) : Except PyError Unit :=
  if x < 0 then .error .valueError else .ok ()

/-- Modelled from the spec: `utils.validation.check_positive_float` (the
utils module is not part of the provided sources); it raises unless given a
positive number. -/
def check_positive_float (x : Rat) : Except PyError Unit :=
  if 0 < x then .ok () else .error .valueError

/-- Modelled from the spec: `utils.validation.check_non_empty_string` raises
an invalid-argument error on an empty string. -/
def check_non_empty_string (s : String) : Except PyError Unit :=
  if s = "" then .error .valueError else .ok ()

/-- An IF record from `base/frequencies.py`: frequency and bandwidth in MHz
plus the `isactive` flag inherited from `BaseEntity`. -/
structure IF where
  frequency : Rat
  bandwidth : Rat
  isactive : Bool
deriving DecidableEq, Repr

/-- `IF.__init__`: checks both values non-negative, then stores them. -/
def IF.init (freq bandwidth : Rat) (isactive : Bool) : Except PyError IF := do
  check_non_negative freq
  check_non_negative bandwidth
  .ok { frequency := freq, bandwidth := bandwidth, isactive := isactive }

/-- `IF.set_if(freq, bandwidth, isactive=True)`; the Python default for the
third argument is `True`, so a call without an explicit `isactive` passes
`true` here. -/
def IF.set_if (x : IF) (freq bandwidth : Rat) (isactive : Bool) : Except PyError IF := do
  check_non_negative freq
  check_non_negative bandwidth
  .ok { x with frequency := freq, bandwidth := bandwidth, isactive := isactive }

/-- `IF.set_frequency(freq, isactive=True)`; a call without an explicit
`isactive` passes `true` here. -/
def IF.set_frequency (x : IF) (freq : Rat) (isactive : Bool) : Except PyError IF := do
  check_non_negative freq
  .ok { x with frequency := freq, isactive := isactive }

/-- `IF.set_bandwidth(bandwidth)`: updates the bandwidth only. -/
def IF.set_bandwidth (x : IF) (bandwidth : Rat) : Except PyError IF := do
  check_non_negative bandwidth
  .ok { x with bandwidth := bandwidth }

/-- The dictionary produced by `IF.to_dict`. -/
structure IFDict where
  frequency : Rat
  bandwidth : Rat
  isactive : Bool
deriving DecidableEq, Repr

/-- `IF.to_dict`. -/
def IF.to_dict (x : IF) : IFDict :=
  { frequency := x.frequency, bandwidth := x.bandwidth, isactive := x.isactive }

/-- `IF.from_dict`: reads the three fields and goes through `IF.__init__`
(hence re-checks non-negativity). -/
def IF.from_dict (d : IFDict) : Except PyError IF :=
  IF.init d.frequency d.bandwidth d.isactive

/-- The `Frequencies` collection stores an ordered list of IFs (`_data`). -/
def Frequencies := List IF

/-- `Frequencies.add_frequency`: rejects an IF whose frequency value is
already present, otherwise appends. -/
def Frequencies.add_frequency (data : List IF) (x : IF) : Except PyError (List IF) :=
  if data.any (fun f => f.frequency = x.frequency) then .error .valueError
  else .ok (data ++ [x])

/-- `Frequencies.remove_frequency`: `self._data.pop(index)`, re-raising the
`IndexError` with its own message (same exception kind). -/
def Frequencies.remove_frequency (data : List IF) (index : Int) : Except PyError (List IF) :=
  pyPop data index

/-- The dictionary produced by `Frequencies.to_dict`. -/
structure FrequenciesDict where
  data : List IFDict
deriving DecidableEq, Repr

/-- `Frequencies.to_dict`. -/
def Frequencies.to_dict (data : List IF) : FrequenciesDict :=
  { data := data.map IF.to_dict }

/-- The list comprehension in `Frequencies.from_dict`: converts the entries
left to right, propagating the first exception. -/
def IFlistFromDict : List IFDict → Except PyError (List IF)
  | [] => .ok []
  | d :: ds => do
    let x ← IF.from_dict d
    let rest ← IFlistFromDict ds
    .ok (x :: rest)

/-- `Frequencies.from_dict`: rebuilds every IF in order. -/
def Frequencies.from_dict (d : FrequenciesDict) : Except PyError (List IF) :=
  IFlistFromDict d.data

/-- C8: `IF.from_dict ∘ IF.to_dict` is the identity field-for-field
(frequency, bandwidth, active flag) on every IF with the non-negativity
invariant the constructor enforces, and `Frequencies.from_dict ∘
Frequencies.to_dict` reproduces the same IFs in the same order with no data
loss, including each active flag. -/
theorem C8_roundtrip :
    (∀ x : IF, 0 ≤ x.frequency → 0 ≤ x.bandwidth →
      IF.from_dict (IF.to_dict x) = .ok x) ∧
    (∀ xs : List IF, (∀ x ∈ xs, 0 ≤ x.frequency ∧ 0 ≤ x.bandwidth) →
      Frequencies.from_dict (Frequencies.to_dict xs) = .ok xs) := by
  have hone : ∀ x : IF, 0 ≤ x.frequency → 0 ≤ x.bandwidth →
      IF.from_dict (IF.to_dict x) = .ok x := by
    intro x hf hb
    simp [IF.from_dict, IF.to_dict, IF.init, check_non_negative, not_lt.mpr hf,
      not_lt.mpr hb, except_ok_bind]
  refine ⟨hone, ?_⟩
  intro xs h
  induction xs with
  | nil => rfl
  | cons x xs ih =>
    have hx := h x (List.mem_cons_self x xs)
    have hxs : ∀ y ∈ xs, 0 ≤ y.frequency ∧ 0 ≤ y.bandwidth := by
      intro y hy
      exact h y (List.mem_cons_of_mem x hy)
    have hrest := ih hxs
    simp [Frequencies.from_dict, Frequencies.to_dict] at hrest ⊢
    simp [IFlistFromDict, hone x hx.1 hx.2, hrest, except_ok_bind]

/-- C8 witness: the round trip evaluated at a concrete IF and at a concrete
one-element collection. -/
theorem C8_roundtrip_witness :
    IF.from_dict (IF.to_dict ⟨1, 2, false⟩) = .ok ⟨1, 2, false⟩ ∧
    Frequencies.from_dict (Frequencies.to_dict [⟨3, 4, true⟩]) = .ok [⟨3, 4, true⟩] :=
  ⟨C8_roundtrip.1 ⟨1, 2, false⟩ (by norm_num) (by norm_num),
   C8_roundtrip.2 [⟨3, 4, true⟩] (by intro x hx; simp at hx; simp [hx])⟩

/-- C9 counterexample: `remove_frequency` at position `-1` on a one-element
collection does **not** raise `IndexError`, although `-1` lies outside
`[0, 1)` — `list.pop` accepts negative indices counted from the end, so the
claimed iff fails. -/
theorem C9_negative_index_accepted :
    Frequencies.remove_frequency [⟨1, 1, true⟩] (-1) = .ok [] := by
  decide

/-- C9 amended: `remove_frequency(p)` raises `IndexError` iff `p` lies
outside `[-n, n)` (Python pop semantics, with negative positions counted from
the end); for `p` in `[0, n)` the element at `p` is deleted and all later
positions shift down by one. -/
theorem C9_remove_frequency_amended (xs : List IF) (p : Int) :
    (Frequencies.remove_frequency xs p = .error .indexError ↔
      (p < -(xs.length : Int) ∨ (xs.length : Int) ≤ p)) ∧
    (0 ≤ p → p < (xs.length : Int) →
      Frequencies.remove_frequency xs p = .ok (xs.eraseIdx p.toNat)) := by
  have hpop : Frequencies.remove_frequency xs p =
      if 0 ≤ (if p < 0 then p + (xs.length : Int) else p) ∧
          (if p < 0 then p + (xs.length : Int) else p) < (xs.length : Int) then
        Except.ok (xs.eraseIdx (if p < 0 then p + (xs.length : Int) else p).toNat)
      else Except.error PyError.indexError := rfl
  constructor
  · rw [hpop]
    rcases lt_or_ge p 0 with hp | hp
    · simp only [if_pos hp]
      by_cases hj : 0 ≤ p + (xs.length : Int) ∧ p + (xs.length : Int) < (xs.length : Int)
      · rw [if_pos hj]
        exact ⟨fun h => Except.noConfusion h, fun h => by omega⟩
      · rw [if_neg hj]
        refine ⟨fun _ => ?_, fun _ => rfl⟩
        rw [not_and_or] at hj
        omega
    · simp only [if_neg (not_lt.mpr hp)]
      by_cases hj : 0 ≤ p ∧ p < (xs.length : Int)
      · rw [if_pos hj]
        exact ⟨fun h => Except.noConfusion h, fun h => by omega⟩
      · rw [if_neg hj]
        refine ⟨fun _ => ?_, fun _ => rfl⟩
        rw [not_and_or] at hj
        omega
  · intro h0 hn
    rw [hpop]
    simp only [if_neg (not_lt.mpr h0)]
    rw [if_pos ⟨h0, hn⟩]

/-- C9 witness: the amended statement evaluated at a concrete two-element
collection and position 0. -/
theorem C9_remove_frequency_witness :
    Frequencies.remove_frequency [⟨1, 1, true⟩, ⟨2, 1, true⟩] 0 =
      .ok ([⟨1, 1, true⟩, ⟨2, 1, true⟩].eraseIdx 0) :=
  (C9_remove_frequency_amended [⟨1, 1, true⟩, ⟨2, 1, true⟩] 0).2 (by norm_num)
    (by norm_num)

/-- C10: `set_frequency` and `set_if` called with the Python default
`isactive=True` overwrite the active flag to `True` (silently re-activating a
deactivated IF), while `set_bandwidth` changes only the bandwidth and leaves
the active flag unchanged. -/
theorem C10_setters_active_flag (x : IF) (f b : Rat) (hf : 0 ≤ f) (hb : 0 ≤ b) :
    IF.set_frequency x f true = .ok { x with frequency := f, isactive := true } ∧
    IF.set_if x f b true = .ok { frequency := f, bandwidth := b, isactive := true } ∧
    IF.set_bandwidth x b = .ok { x with bandwidth := b } := by
  refine ⟨?_, ?_, ?_⟩ <;>
    simp [IF.set_frequency, IF.set_if, IF.set_bandwidth, check_non_negative,
      not_lt.mpr hf, not_lt.mpr hb, except_ok_bind]

/-- C10 witness: the setters evaluated on a concrete deactivated IF show the
silent re-activation and the bandwidth-only frame of `set_bandwidth`. -/
theorem C10_setters_witness :
    IF.set_frequency ⟨5, 5, false⟩ 7 true = .ok { frequency := 7, bandwidth := 5, isactive := true } ∧
    IF.set_if ⟨5, 5, false⟩ 7 8 true = .ok { frequency := 7, bandwidth := 8, isactive := true } ∧
    IF.set_bandwidth ⟨5, 5, false⟩ 8 = .ok { frequency := 5, bandwidth := 8, isactive := false } :=
  C10_setters_active_flag ⟨5, 5, false⟩ 7 8 (by norm_num) (by norm_num)

/-- Modelled from the spec: a `Source` (`base/sources.py` is not part of the
provided sources) is a value object identified by name with an `isactive`
flag; `validateOK` records the outcome of its own `validate()`, whose
conditions the spec does not define. -/
structure Source where
  name : String
  isactive : Bool
  validateOK : Bool
deriving DecidableEq, Repr

/-- Modelled from the spec: a `Telescope` (`base/telescopes.py` is not part
of the provided sources) is a value object identified by code with an
`isactive` flag; `validateOK` records the outcome of its own `validate()`. -/
structure Telescope where
  code : String
  isactive : Bool
  validateOK : Bool
deriving DecidableEq, Repr

/-- Modelled from the spec: a `Scan` (`base/scans.py` is not part of the
provided sources) holds an optional source index, telescope and frequency
index lists, start time and duration, the `is_off_source` flag and the
`isactive` flag.  `validateOK` records the outcome of its own `validate()`
and `availabilityOK` the outcome of `check_telescope_availability()`, both
unspecified beyond their boolean results. -/
structure Scan where
  source_index : Option Int
  telescope_indices : List Int
  frequency_indices : List Int
  start : Rat
  duration : Rat
  is_off_source : Bool
  isactive : Bool
  validateOK : Bool
  availabilityOK : Bool
deriving DecidableEq, Repr

/-- Modelled from the spec: `IF.validate` is inherited from `BaseEntity`
(not part of the provided sources); the spec requires only that active
members pass it, so it is modelled as passing. -/
def IF.validateB (_ : IF) : Bool := true

/-- The `Observation` aggregate state from `base/observation.py`: code,
type, the four owned collections, the `isactive` flag, the
`calculated_data` key-value store, and the `_sefd` attribute.  `__init__`
never assigns `_sefd` (only `Configurator.set_sefd` does), which is
modelled by `sefd : Option Rat` with `none` meaning the attribute is
absent, so that reading it raises `AttributeError`. -/
structure Observation where
  observation_code : String
  observation_type : String
  sources : List Source
  telescopes : List Telescope
  frequencies : List IF
  scans : List Scan
  isactive : Bool
  calculated_data : List (String × Rat)
  sefd : Option Rat
deriving DecidableEq, Repr

/-- `Observation.__init__` with all defaults: code `OBS_DEFAULT`, type
`VLBI`, empty collections, empty calculated-data store, `_sefd` unset. -/
def Observation.fresh : Observation :=
  { observation_code := "OBS_DEFAULT", observation_type := "VLBI",
    sources := [], telescopes := [], frequencies := [], scans := [],
    isactive := true, calculated_data := [], sefd := none }

/-- `Observation.set_sources`: replaces the collection and clears
`calculated_data`. -/
def Observation.set_sources (obs : Observation) (s : List Source) : Observation :=
  { obs with sources := s, calculated_data := [] }

/-- `Observation.set_telescopes`: replaces the collection and clears
`calculated_data`. -/
def Observation.set_telescopes (obs : Observation) (t : List Telescope) : Observation :=
  { obs with telescopes := t, calculated_data := [] }

/-- `Observation.set_frequencies`: replaces the collection and clears
`calculated_data`. -/
def Observation.set_frequencies (obs : Observation) (f : List IF) : Observation :=
  { obs with frequencies := f, calculated_data := [] }

/-- `Observation.set_scans`: replaces the collection and clears
`calculated_data`. -/
def Observation.set_scans (obs : Observation) (s : List Scan) : Observation :=
  { obs with scans := s, calculated_data := [] }

/-- `Observation.set_calculated_data(key, data)`: rejects an empty key,
then stores under the key. -/
def Observation.set_calculated_data (obs : Observation) (key : String) (v : Rat) :
    Except PyError Observation := do
  check_non_empty_string key
  .ok { obs with calculated_data := dSet obs.calculated_data key v }

/-- `Observation.get_calculated_data(key)`: rejects an empty key, then
returns `self._calculated_data.get(key)` (None when absent). -/
def Observation.get_calculated_data (obs : Observation) (key : String) :
    Except PyError (Option Rat) := do
  check_non_empty_string key
  .ok (dGet obs.calculated_data key)

/-- The telescopes/frequencies arm of `Observation._update_scan_indices`
for a removal: walking the index list in order, the removed index is
skipped, an index greater than it is decremented, a smaller one kept. -/
def updateIndicesRemove (removed : Int) (idxs : List Int) : List Int :=
  idxs.filterMap fun idx =>
    if idx = removed then none
    else if removed < idx then some (idx - 1)
    else some idx

/-- The telescopes/frequencies arm of `Observation._update_scan_indices`
for an insertion: an index at or above the insertion point is incremented,
the rest kept. -/
def updateIndicesInsert (inserted : Int) (idxs : List Int) : List Int :=
  idxs.map fun idx => if inserted ≤ idx then idx + 1 else idx

/-- The sources arm of `Observation._update_scan_indices` for a removal:
a scan whose source index equals the removed position is cleared and marked
off-source; a greater index is decremented; anything else is untouched. -/
def Scan.removeSourceUpdate (removed : Int) (s : Scan) : Scan :=
  match s.source_index with
  | none => s
  | some i =>
    if i = removed then { s with source_index := none, is_off_source := true }
    else if removed < i then { s with source_index := some (i - 1) }
    else s

/-- The sources arm of `Observation._update_scan_indices` for an insertion:
a source index at or above the insertion point is incremented. -/
def Scan.insertSourceUpdate (inserted : Int) (s : Scan) : Scan :=
  match s.source_index with
  | none => s
  | some i => if inserted ≤ i then { s with source_index := some (i + 1) } else s

/-- Modelled from the spec: `Sources.remove_source` and
`Telescopes.remove_telescope` (their modules are not part of the provided
sources) fail with `IndexError` for a position outside `[0, len)` and
otherwise delete the entry at that position. -/
def specRemoveAt {α : Type} (xs : List α) (i : Int) : Except PyError (List α) :=
  if 0 ≤ i ∧ i < (xs.length : Int) then .ok (xs.eraseIdx i.toNat)
  else .error .indexError

/-- `Observation.remove_source`: delegate the removal to the collection
(nothing is mutated when it raises), then rewrite every scan through the
sources arm of `_update_scan_indices`. -/
def Observation.remove_source (obs : Observation) (index : Int) :
    Except PyError Observation := do
  let srcs ← specRemoveAt obs.sources index
  .ok { obs with
        sources := srcs,
        scans := obs.scans.map (Scan.removeSourceUpdate index) }

/-- `Observation.insert_source`: `self._sources._data.insert(index, source)`
(plain Python list insert, clamping), then rewrite every scan through the
sources arm of `_update_scan_indices`. -/
def Observation.insert_source (obs : Observation) (src : Source) (index : Int) :
    Observation :=
  { obs with
    sources := pyInsert obs.sources index src,
    scans := obs.scans.map (Scan.insertSourceUpdate index) }

/-- `Observation.remove_telescope`: delegate the removal, then rewrite every
scan index list through the telescopes arm of `_update_scan_indices`. -/
def Observation.remove_telescope (obs : Observation) (index : Int) :
    Except PyError Observation := do
  let tels ← specRemoveAt obs.telescopes index
  .ok { obs with
        telescopes := tels,
        scans := obs.scans.map fun s =>
          { s with telescope_indices := updateIndicesRemove index s.telescope_indices } }

/-- `Observation.insert_telescope`: plain list insert, then rewrite every
scan index list through the telescopes arm of `_update_scan_indices`. -/
def Observation.insert_telescope (obs : Observation) (t : Telescope) (index : Int) :
    Observation :=
  { obs with
    telescopes := pyInsert obs.telescopes index t,
    scans := obs.scans.map fun s =>
      { s with telescope_indices := updateIndicesInsert index s.telescope_indices } }

/-- `Observation.remove_frequency`: `Frequencies.remove_frequency` (Python
`pop`, which also accepts negative in-range indices), then rewrite every
scan index list through the frequencies arm of `_update_scan_indices`. -/
def Observation.remove_frequency (obs : Observation) (index : Int) :
    Except PyError Observation := do
  let fs ← Frequencies.remove_frequency obs.frequencies index
  .ok { obs with
        frequencies := fs,
        scans := obs.scans.map fun s =>
          { s with frequency_indices := updateIndicesRemove index s.frequency_indices } }

/-- `Observation.insert_frequency`: plain list insert, then rewrite every
scan index list through the frequencies arm of `_update_scan_indices`. -/
def Observation.insert_frequency (obs : Observation) (f : IF) (index : Int) :
    Observation :=
  { obs with
    frequencies := pyInsert obs.frequencies index f,
    scans := obs.scans.map fun s =>
      { s with frequency_indices := updateIndicesInsert index s.frequency_indices } }

/-- The sources arm of `Observation._sync_scans_with_activation` for one
scan: the branch only fires when the scan's current source index equals the
toggled position; on deactivation the reference is cleared and the scan
marked off-source, on activation an off-source scan that still holds that
index is restored. -/
def Scan.syncSourceActivation (index : Int) (is_active : Bool) (s : Scan) : Scan :=
  if s.source_index = some index then
    if ¬ is_active then { s with source_index := none, is_off_source := true }
    else if s.is_off_source then { s with source_index := some index, is_off_source := false }
    else s
  else s

/-- `Observation._sync_scans_with_activation("sources", index, is_active)`:
walks every scan with the sources arm. -/
def Observation.sync_scans_sources (obs : Observation) (index : Int) (is_active : Bool) :
    Observation :=
  { obs with scans := obs.scans.map (Scan.syncSourceActivation index is_active) }

/-- Bind on a failed `Except` computation propagates the error. -/
theorem except_error_bind {ε α β : Type} (e : ε) (f : α → Except ε β) :
    (Except.error e : Except ε α) >>= f = .error e := rfl

/-- The caller-visible state after an operation that may raise: the new
state on success, the unchanged one when the exception fired before any
mutation (every embedded operation mutates nothing before its first
raising step). -/
def exceptToState (obs : Observation) : Except PyError Observation → Observation
  | .ok o => o
  | .error _ => obs

/-- Modelled from the spec: `Scan.get_telescopes()` resolves the scan's
telescope indices in the owning Observation (through the parent
back-reference); `Scans`/`Scan` are not part of the provided sources. -/
def Observation.scan_telescopes (obs : Observation) (s : Scan) : List Telescope :=
  s.telescope_indices.filterMap fun i =>
    if 0 ≤ i then obs.telescopes.get? i.toNat else none

/-- The overlap test from `Observation.validate`:
`not (scan_end <= prev_start or scan_start >= prev_end)`. -/
def overlapTest (scan_start scan_end prev_start prev_end : Rat) : Bool :=
  decide (¬ (scan_end ≤ prev_start ∨ scan_start ≥ prev_end))

/-- One step of a stable insertion sort by scan start time. -/
def insertByStart (x : Scan) : List Scan → List Scan
  | [] => [x]
  | y :: ys => if y.start < x.start then y :: insertByStart x ys else x :: y :: ys

/-- Python `sorted(active_scans, key=get_start)`: a stable ascending sort by
start time. -/
def sortByStart (xs : List Scan) : List Scan := xs.foldr insertByStart []

/-- The inner loop of the temporal-consistency check: for each active
telescope of the scan, compare the scan interval with every interval already
booked for that telescope code, returning `none` on the first overlap, else
the map with the interval appended under the code. -/
def telLoop (scan_start scan_end : Rat) :
    List Telescope → List (String × List (Rat × Rat)) →
      Option (List (String × List (Rat × Rat)))
  | [], m => some m
  | t :: ts, m =>
    let prev := (dGet m t.code).getD []
    if prev.any fun pe => overlapTest scan_start scan_end pe.1 pe.2 then none
    else telLoop scan_start scan_end ts (dSet m t.code (prev ++ [(scan_start, scan_end)]))

/-- The outer loop of the temporal-consistency check over the sorted active
scans: availability first, then the per-telescope interval bookkeeping;
`false` is returned on the first failure of either. -/
def scanLoop (obs : Observation) :
    List Scan → List (String × List (Rat × Rat)) → Bool
  | [], _ => true
  | s :: rest, m =>
    if !s.availabilityOK then false
    else
      match telLoop s.start (s.start + s.duration)
          ((obs.scan_telescopes s).filter fun t => t.isactive) m with
      | none => false
      | some m2 => scanLoop obs rest m2

/-- `Observation.validate`: the sequence of checks of
`base/observation.py`, each failing condition returning `false`, except
that reading `self._sefd` raises `AttributeError` when the attribute was
never assigned and `check_positive_float` raises rather than returns.
`Scans.get_active_scans` (not part of the provided sources) is modelled
from the spec as the active filter in original order. -/
def Observation.validate (obs : Observation) : Except PyError Bool :=
  if obs.observation_code = "" then .ok false
  else if ¬ (obs.observation_type = "VLBI" ∨ obs.observation_type = "SINGLE_DISH") then
    .ok false
  else
    match obs.sefd with
    | none => .error .attributeError
    | some v =>
      match check_positive_float v with
      | .error e => .error e
      | .ok _ =>
        if (obs.sources.filter fun s => s.isactive).isEmpty then .ok false
        else if (obs.sources.filter fun s => s.isactive).any fun s => !s.validateOK then
          .ok false
        else if (obs.telescopes.filter fun t => t.isactive).isEmpty then .ok false
        else if (obs.telescopes.filter fun t => t.isactive).any fun t => !t.validateOK then
          .ok false
        else if (obs.frequencies.filter fun f => f.isactive).isEmpty then .ok false
        else if (obs.frequencies.filter fun f => f.isactive).any fun f => !f.validateB then
          .ok false
        else if (obs.scans.filter fun s => s.isactive).isEmpty then .ok false
        else if (obs.scans.filter fun s => s.isactive).any fun s => !s.validateOK then
          .ok false
        else .ok (scanLoop obs (sortByStart (obs.scans.filter fun s => s.isactive)) [])

/-- C6: the claim says `validate()` always terminates with a boolean and
never raises, in particular on a freshly constructed Observation.  The code
instead reads `self._sefd`, which `__init__` never assigns (only
`Configurator.set_sefd` does), so a fresh Observation raises
`AttributeError` inside `validate()`. -/
theorem C6_validate_fresh_raises :
    Observation.validate Observation.fresh = .error .attributeError := by
  rfl

/-- A concrete source, telescope and IF, all active and passing their own
validation, used by the validation scenarios. -/
def srcA : Source := { name := "S1", isactive := true, validateOK := true }

def telA : Telescope := { code := "T1", isactive := true, validateOK := true }

def ifA : IF := { frequency := 1000, bandwidth := 16, isactive := true }

/-- An active scan over source 0, telescope 0 and frequency 0 with the
given start and duration, passing its own validation and availability. -/
def scanAt (s d : Rat) : Scan :=
  { source_index := some 0, telescope_indices := [0], frequency_indices := [0],
    start := s, duration := d, is_off_source := false, isactive := true,
    validateOK := true, availabilityOK := true }

/-- An otherwise-valid Observation (one active source, telescope and
frequency, SEFD assigned) holding two active scans on the same telescope
with the given intervals. -/
def obsTwoScans (s1 d1 s2 d2 : Rat) : Observation :=
  { observation_code := "OBS7", observation_type := "VLBI",
    sources := [srcA], telescopes := [telA], frequencies := [ifA],
    scans := [scanAt s1 d1, scanAt s2 d2], isactive := true,
    calculated_data := [], sefd := some 1 }

/-- C7: on an otherwise-valid Observation with two active scans on the same
active telescope, intervals `[0,10)` and `[5,15)` make `validate()` return
`false` (the first detected overlap fails the whole validation) while
`[0,10)` and `[10,20)` make it return `true`; and the embedded overlap test
decides overlap exactly as
`not (end_a <= start_b or start_a >= end_b)`. -/
theorem C7_overlap_detection :
    Observation.validate (obsTwoScans 0 10 5 10) = .ok false ∧
    Observation.validate (obsTwoScans 0 10 10 10) = .ok true ∧
    ∀ sa ea sb eb : Rat, overlapTest sa ea sb eb = true ↔ ¬ (ea ≤ sb ∨ sa ≥ eb) := by
  refine ⟨?_, ?_, ?_⟩
  · norm_num [Observation.validate, obsTwoScans, scanAt, srcA, telA, ifA,
      IF.validateB, sortByStart, insertByStart, scanLoop, telLoop, dGet, dSet,
      overlapTest, Observation.scan_telescopes, check_positive_float]
  · norm_num [Observation.validate, obsTwoScans, scanAt, srcA, telA, ifA,
      IF.validateB, sortByStart, insertByStart, scanLoop, telLoop, dGet, dSet,
      overlapTest, Observation.scan_telescopes, check_positive_float]
    decide
  · intro sa ea sb eb
    simp [overlapTest]

/-- Modelled from the spec: toggling the active flag of the source at a
position (through the Sources collection, not part of the provided
sources) updates the flag and triggers the sources arm of
`Observation._sync_scans_with_activation`. -/
def Observation.set_source_activation (obs : Observation) (index : Int) (is_active : Bool) :
    Observation :=
  let obs2 : Observation :=
    { obs with
      sources := obs.sources.mapIdx fun j s =>
        if (j : Int) = index then { s with isactive := is_active } else s }
  obs2.sync_scans_sources index is_active

/-- The Observation of the C5 scenario: three active sources and one scan
whose intended source is position 2. -/
def obsC5 : Observation :=
  { observation_code := "OBS5", observation_type := "VLBI",
    sources := [⟨"A", true, true⟩, ⟨"B", true, true⟩, ⟨"C", true, true⟩],
    telescopes := [telA], frequencies := [ifA],
    scans := [{ source_index := some 2, telescope_indices := [0],
                frequency_indices := [0], start := 0, duration := 10,
                is_off_source := false, isactive := true, validateOK := true,
                availabilityOK := true }],
    isactive := true, calculated_data := [], sefd := some 1 }

/-- C5: deactivating the source at position 2 degrades the scan with
`source_index = 2` to `(None, off-source)` as claimed, but the subsequent
re-activation of position 2 does **not** restore `(2, False)`: the restore
branch of `_sync_scans_with_activation` requires the scan to still hold
`source_index == 2`, which the degrade step just reset to `None`, so the
scan stays `(None, True)`. -/
theorem C5_deactivate_reactivate :
    ((obsC5.set_source_activation 2 false).scans.map fun s =>
      (s.source_index, s.is_off_source)) = [(none, true)] ∧
    (((obsC5.set_source_activation 2 false).set_source_activation 2 true).scans.map fun s =>
      (s.source_index, s.is_off_source)) = [(none, true)] := by
  decide

/-- The index transformation the spec prescribes for a removal at `p` — a
second definition following the spec words, to be compared with the embedded
walk: the index equal to `p` is dropped from the set, an index greater than
`p` becomes that index minus one, an index less than `p` is unchanged. -/
def specRemoveTransform (p : Int) (idxs : List Int) : List Int :=
  (idxs.filter fun i => i ≠ p).map fun i => if p < i then i - 1 else i

/-- The embedded removal walk coincides with the spec transformation. -/
theorem updateIndicesRemove_eq_spec (p : Int) (l : List Int) :
    updateIndicesRemove p l = specRemoveTransform p l := by
  induction l with
  | nil => rfl
  | cons a l ih =>
    simp only [updateIndicesRemove, List.filterMap_cons, specRemoveTransform,
      List.filter_cons] at ih ⊢
    rcases eq_or_ne a p with h | h
    · subst h
      simp only [if_pos rfl]
      simpa using ih
    · rw [if_neg h]
      by_cases hlt : p < a
      · rw [if_pos hlt]
        simp [h, hlt, ih]
      · rw [if_neg hlt]
        simp [h, hlt, ih]

/-- C2: a successful removal at position `p` through the Observation rewrites
every scan deterministically: in the telescope/frequency index sets an index
equal to `p` is dropped, one greater than `p` is decremented, one less than
`p` kept; a scan whose `source_index` equals `p` is cleared to `None` and
marked off-source, a greater `source_index` is decremented, a smaller one
kept. -/
theorem C2_remove_reindex (obs : Observation) (p : Int) :
    (∀ obs2, obs.remove_telescope p = .ok obs2 →
      obs2.scans = obs.scans.map fun s =>
        { s with telescope_indices := specRemoveTransform p s.telescope_indices }) ∧
    (∀ obs2, obs.remove_frequency p = .ok obs2 →
      obs2.scans = obs.scans.map fun s =>
        { s with frequency_indices := specRemoveTransform p s.frequency_indices }) ∧
    (∀ obs2, obs.remove_source p = .ok obs2 →
      obs2.scans = obs.scans.map fun s =>
        match s.source_index with
        | some i =>
          if i = p then { s with source_index := none, is_off_source := true }
          else if p < i then { s with source_index := some (i - 1) }
          else s
        | none => s) := by
  refine ⟨?_, ?_, ?_⟩
  · intro obs2 h
    unfold Observation.remove_telescope at h
    cases hr : specRemoveAt obs.telescopes p with
    | error e => rw [hr, except_error_bind] at h; exact Except.noConfusion h
    | ok tels =>
      rw [hr, except_ok_bind] at h
      cases h
      simp [updateIndicesRemove_eq_spec]
  · intro obs2 h
    unfold Observation.remove_frequency at h
    cases hr : Frequencies.remove_frequency obs.frequencies p with
    | error e => rw [hr, except_error_bind] at h; exact Except.noConfusion h
    | ok fs =>
      rw [hr, except_ok_bind] at h
      cases h
      simp [updateIndicesRemove_eq_spec]
  · intro obs2 h
    unfold Observation.remove_source at h
    cases hr : specRemoveAt obs.sources p with
    | error e => rw [hr, except_error_bind] at h; exact Except.noConfusion h
    | ok srcs =>
      rw [hr, except_ok_bind] at h
      cases h
      simp only [Except.ok.injEq]
      congr 1
      funext s
      cases hs : s.source_index <;>
        simp [Scan.removeSourceUpdate, hs]

/-- A concrete Observation with two entries in every collection and one scan
referring to all of them, used to instantiate the reindexing theorems. -/
def obsW : Observation :=
  { observation_code := "OBSW", observation_type := "VLBI",
    sources := [⟨"A", true, true⟩, ⟨"B", true, true⟩],
    telescopes := [⟨"T1", true, true⟩, ⟨"T2", true, true⟩],
    frequencies := [⟨1000, 16, true⟩, ⟨2000, 16, true⟩],
    scans := [{ source_index := some 1, telescope_indices := [0, 1],
                frequency_indices := [0, 1], start := 0, duration := 10,
                is_off_source := false, isactive := true, validateOK := true,
                availabilityOK := true }],
    isactive := true, calculated_data := [], sefd := some 1 }

/-- The state of `obsW` after a successful `remove_telescope(0)`. -/
def obsWRemTel : Observation := exceptToState obsW (obsW.remove_telescope 0)

/-- C2 witness: the removal theorem applied to `obsW` at position 0. -/
theorem C2_remove_reindex_witness :
    obsWRemTel.scans = obsW.scans.map (fun s =>
      { s with telescope_indices := specRemoveTransform 0 s.telescope_indices }) :=
  (C2_remove_reindex obsW 0).1 obsWRemTel (by decide)

/-- C3: inserting at position `p` through the Observation increments every
scan index at or above `p` by one and leaves every index strictly below `p`
unchanged, in every scan, for all three entity kinds (the inserts never
raise: the underlying Python `list.insert` clamps the position). -/
theorem C3_insert_reindex (obs : Observation) (src : Source) (t : Telescope)
    (f : IF) (p : Int) :
    (obs.insert_telescope t p).scans = (obs.scans.map fun s =>
      { s with telescope_indices :=
          s.telescope_indices.map fun i => if p ≤ i then i + 1 else i }) ∧
    (obs.insert_frequency f p).scans = (obs.scans.map fun s =>
      { s with frequency_indices :=
          s.frequency_indices.map fun i => if p ≤ i then i + 1 else i }) ∧
    (obs.insert_source src p).scans = (obs.scans.map fun s =>
      match s.source_index with
      | some i => if p ≤ i then { s with source_index := some (i + 1) } else s
      | none => s) := by
  refine ⟨rfl, rfl, ?_⟩
  show obs.scans.map (Scan.insertSourceUpdate p) = _
  congr 1
  funext s
  cases hs : s.source_index <;> simp [Scan.insertSourceUpdate, hs]

/-- The Observation of the C4 scenario: a non-empty calculated-data store
next to removable entries in each collection. -/
def obsC4 : Observation :=
  { observation_code := "OBS4", observation_type := "VLBI",
    sources := [⟨"A", true, true⟩], telescopes := [telA],
    frequencies := [⟨1000, 16, true⟩, ⟨2000, 16, true⟩],
    scans := [], isactive := true, calculated_data := [("bw", 42)],
    sefd := some 1 }

/-- C4 counterexample: a successful `remove_frequency(0)` does **not** clear
`calculated_data` — the previously stored value is still returned, so the
claim that every structural insert/remove clears the store fails. -/
theorem C4_remove_keeps_cache :
    (obsC4.remove_frequency 0).isOk = true ∧
    (exceptToState obsC4 (obsC4.remove_frequency 0)).get_calculated_data "bw" =
      .ok (some 42) := by
  constructor <;> decide

/-- C4 amended: the bulk `set_sources/set_telescopes/set_frequencies/
set_scans` do clear the store (a later `get_calculated_data` returns None
for any key), while the structural `insert_*`/`remove_*` operations leave
`calculated_data` exactly unchanged. -/
theorem C4_cache_invalidation_amended (obs : Observation) (key : String)
    (ss : List Source) (ts : List Telescope) (fs : List IF) (scs : List Scan)
    (src : Source) (t : Telescope) (f : IF) (p : Int) (hk : key ≠ "") :
    (obs.set_sources ss).get_calculated_data key = .ok none ∧
    (obs.set_telescopes ts).get_calculated_data key = .ok none ∧
    (obs.set_frequencies fs).get_calculated_data key = .ok none ∧
    (obs.set_scans scs).get_calculated_data key = .ok none ∧
    (obs.insert_source src p).calculated_data = obs.calculated_data ∧
    (obs.insert_telescope t p).calculated_data = obs.calculated_data ∧
    (obs.insert_frequency f p).calculated_data = obs.calculated_data ∧
    (exceptToState obs (obs.remove_source p)).calculated_data = obs.calculated_data ∧
    (exceptToState obs (obs.remove_telescope p)).calculated_data = obs.calculated_data ∧
    (exceptToState obs (obs.remove_frequency p)).calculated_data = obs.calculated_data := by
  have hget : ∀ o : Observation, o.calculated_data = [] →
      o.get_calculated_data key = .ok none := by
    intro o ho
    simp [Observation.get_calculated_data, check_non_empty_string, hk,
      except_ok_bind, dGet, ho]
  refine ⟨hget _ rfl, hget _ rfl, hget _ rfl, hget _ rfl, rfl, rfl, rfl, ?_, ?_, ?_⟩
  · unfold Observation.remove_source
    cases hr : specRemoveAt obs.sources p <;>
      simp [hr, except_error_bind, except_ok_bind, exceptToState]
  · unfold Observation.remove_telescope
    cases hr : specRemoveAt obs.telescopes p <;>
      simp [hr, except_error_bind, except_ok_bind, exceptToState]
  · unfold Observation.remove_frequency
    cases hr : Frequencies.remove_frequency obs.frequencies p <;>
      simp [hr, except_error_bind, except_ok_bind, exceptToState]

/-- C4 witness: the amended statement applied to `obsC4` with key `bw` and
position 0. -/
theorem C4_cache_invalidation_witness :
    (obsC4.set_sources []).get_calculated_data "bw" = .ok none ∧
    (exceptToState obsC4 (obsC4.remove_frequency 0)).calculated_data =
      obsC4.calculated_data :=
  ⟨(C4_cache_invalidation_amended obsC4 "bw" [] [] [] [] srcA telA ifA 0
      (by decide)).1,
   (C4_cache_invalidation_amended obsC4 "bw" [] [] [] [] srcA telA ifA 0
      (by decide)).2.2.2.2.2.2.2.2.2⟩

/-- A stored index is in range for a collection of the given length:
zero-based, strictly below the length. -/
def idxOK (len : Nat) (i : Int) : Bool :=
  decide (0 ≤ i) && decide (i < (len : Int))

/-- The no-orphan-references property for one scan against the collection
lengths: every telescope and frequency index is a valid position, and the
source reference is either a valid position or explicitly cleared
(`source_index = None` together with `is_off_source = True`). -/
def Scan.indicesOK (nsrc ntel nfreq : Nat) (s : Scan) : Bool :=
  s.telescope_indices.all (idxOK ntel) &&
  s.frequency_indices.all (idxOK nfreq) &&
  (match s.source_index with
   | none => s.is_off_source
   | some i => idxOK nsrc i)

/-- The no-orphan-references invariant over every scan of an Observation. -/
def Observation.indicesInvariant (obs : Observation) : Bool :=
  obs.scans.all
    (Scan.indicesOK obs.sources.length obs.telescopes.length obs.frequencies.length)

/-- The structural mutations routed through the Observation. -/
inductive ObsOp where
  | insertSource : Source → Int → ObsOp
  | insertTelescope : Telescope → Int → ObsOp
  | insertFrequency : IF → Int → ObsOp
  | removeSource : Int → ObsOp
  | removeTelescope : Int → ObsOp
  | removeFrequency : Int → ObsOp
deriving DecidableEq, Repr

/-- Running one structural operation: a raising operation leaves the state
unchanged (each one raises, if at all, before mutating anything). -/
def Observation.applyOp (obs : Observation) : ObsOp → Observation
  | .insertSource s i => obs.insert_source s i
  | .insertTelescope t i => obs.insert_telescope t i
  | .insertFrequency f i => obs.insert_frequency f i
  | .removeSource i => exceptToState obs (obs.remove_source i)
  | .removeTelescope i => exceptToState obs (obs.remove_telescope i)
  | .removeFrequency i => exceptToState obs (obs.remove_frequency i)

/-- Running a sequence of structural operations in order. -/
def Observation.applyOps (obs : Observation) (ops : List ObsOp) : Observation :=
  ops.foldl Observation.applyOp obs

/-- An operation whose removal position, if any, is non-negative. -/
def ObsOp.removeNonneg : ObsOp → Bool
  | .removeSource i => decide (0 ≤ i)
  | .removeTelescope i => decide (0 ≤ i)
  | .removeFrequency i => decide (0 ≤ i)
  | _ => true

/-- A clamped Python insert always grows the list by one. -/
theorem pyInsert_length {α : Type} (xs : List α) (i : Int) (x : α) :
    (pyInsert xs i x).length = xs.length + 1 := by
  unfold pyInsert
  simp only [List.length_append, List.length_cons, List.length_take, List.length_drop]
  by_cases h : i < 0 <;> simp only [if_pos, if_neg, h] <;> omega

/-- A successful spec-modelled removal pins down the position and result. -/
theorem specRemoveAt_ok {α : Type} {xs ys : List α} {i : Int}
    (h : specRemoveAt xs i = .ok ys) :
    0 ≤ i ∧ i < (xs.length : Int) ∧ ys = xs.eraseIdx i.toNat := by
  unfold specRemoveAt at h
  split at h
  · rename_i hc
    cases h
    exact ⟨hc.1, hc.2, rfl⟩
  · exact Except.noConfusion h

/-- A successful Python pop at a non-negative position pins down the
position and result. -/
theorem pyPop_ok_of_nonneg {α : Type} {xs ys : List α} {i : Int}
    (h : pyPop xs i = .ok ys) (hi : 0 ≤ i) :
    i < (xs.length : Int) ∧ ys = xs.eraseIdx i.toNat := by
  have hpop : pyPop xs i =
      if 0 ≤ (if i < 0 then i + (xs.length : Int) else i) ∧
          (if i < 0 then i + (xs.length : Int) else i) < (xs.length : Int) then
        Except.ok (xs.eraseIdx (if i < 0 then i + (xs.length : Int) else i).toNat)
      else Except.error PyError.indexError := rfl
  rw [hpop] at h
  simp only [if_neg (not_lt.mpr hi)] at h
  split at h
  · rename_i hc
    cases h
    exact ⟨hc.2, rfl⟩
  · exact Except.noConfusion h

/-- Deleting an in-range position shrinks the list by exactly one. -/
theorem length_eraseIdx_int {α : Type} (xs : List α) (i : Int)
    (h0 : 0 ≤ i) (h1 : i < (xs.length : Int)) :
    (xs.eraseIdx i.toNat).length = xs.length - 1 := by
  have hn : i.toNat < xs.length := by omega
  have := List.length_eraseIdx_add_one hn
  omega

/-- Insert-reindexing keeps every index in range for the grown collection. -/
theorem updateIndicesInsert_bounds {n : Nat} {p : Int} {l : List Int}
    (h : ∀ i ∈ l, 0 ≤ i ∧ i < (n : Int)) :
    ∀ i ∈ updateIndicesInsert p l, 0 ≤ i ∧ i < (n : Int) + 1 := by
  intro i hi
  rw [updateIndicesInsert, List.mem_map] at hi
  obtain ⟨a, ha, hval⟩ := hi
  rcases h a ha with ⟨h1, h2⟩
  by_cases hc : p ≤ a
  · simp only [if_pos hc] at hval
    omega
  · simp only [if_neg hc] at hval
    omega

/-- Remove-reindexing at an in-range non-negative position keeps every
index in range for the shrunk collection. -/
theorem updateIndicesRemove_bounds {n : Nat} {p : Int} {l : List Int}
    (h : ∀ i ∈ l, 0 ≤ i ∧ i < (n : Int)) (hp : 0 ≤ p) (hpn : p < (n : Int)) :
    ∀ i ∈ updateIndicesRemove p l, 0 ≤ i ∧ i < (n : Int) - 1 := by
  intro i hi
  rw [updateIndicesRemove, List.mem_filterMap] at hi
  obtain ⟨a, ha, hval⟩ := hi
  rcases h a ha with ⟨h1, h2⟩
  by_cases he : a = p
  · simp only [if_pos he] at hval
    exact Option.noConfusion hval
  · simp only [if_neg he] at hval
    by_cases hlt : p < a
    · simp only [if_pos hlt, Option.some.injEq] at hval
      omega
    · simp only [if_neg hlt, Option.some.injEq] at hval
      omega

/-- Unfolding of the per-scan no-orphan property into its three parts. -/
theorem scan_indicesOK_iff (nsrc ntel nfreq : Nat) (s : Scan) :
    Scan.indicesOK nsrc ntel nfreq s = true ↔
      (∀ i ∈ s.telescope_indices, 0 ≤ i ∧ i < (ntel : Int)) ∧
      (∀ i ∈ s.frequency_indices, 0 ≤ i ∧ i < (nfreq : Int)) ∧
      (match s.source_index with
       | none => s.is_off_source = true
       | some i => 0 ≤ i ∧ i < (nsrc : Int)) := by
  unfold Scan.indicesOK idxOK
  cases hs : s.source_index <;>
    simp [List.all_eq_true, Bool.and_eq_true, decide_eq_true_eq, and_assoc]

/-- Unfolding of the Observation-level invariant. -/
theorem indicesInvariant_iff (obs : Observation) :
    obs.indicesInvariant = true ↔
      ∀ s ∈ obs.scans,
        Scan.indicesOK obs.sources.length obs.telescopes.length
          obs.frequencies.length s = true := by
  unfold Observation.indicesInvariant
  simp [List.all_eq_true]

/-- Inserting a source preserves the per-scan property against the grown
source collection. -/
theorem scanOK_insertSource {nsrc ntel nfreq : Nat} (p : Int) (s : Scan)
    (h : Scan.indicesOK nsrc ntel nfreq s = true) :
    Scan.indicesOK (nsrc + 1) ntel nfreq (Scan.insertSourceUpdate p s) = true := by
  rw [scan_indicesOK_iff] at h ⊢
  obtain ⟨ht, hf, hsrc⟩ := h
  unfold Scan.insertSourceUpdate
  cases hs : s.source_index with
  | none =>
    rw [hs] at hsrc
    exact ⟨ht, hf, by rw [hs]; exact hsrc⟩
  | some i =>
    rw [hs] at hsrc
    by_cases hc : p ≤ i
    · simp only [if_pos hc]
      refine ⟨ht, hf, ?_⟩
      push_cast
      omega
    · simp only [if_neg hc]
      refine ⟨ht, hf, ?_⟩
      rw [hs]
      push_cast
      omega

/-- Removing the source at an in-range non-negative position preserves the
per-scan property against the shrunk source collection. -/
theorem scanOK_removeSource {nsrc ntel nfreq : Nat} (p : Int) (s : Scan)
    (h : Scan.indicesOK nsrc ntel nfreq s = true) (hp : 0 ≤ p)
    (hpn : p < (nsrc : Int)) :
    Scan.indicesOK (nsrc - 1) ntel nfreq (Scan.removeSourceUpdate p s) = true := by
  rw [scan_indicesOK_iff] at h ⊢
  obtain ⟨ht, hf, hsrc⟩ := h
  unfold Scan.removeSourceUpdate
  cases hs : s.source_index with
  | none =>
    rw [hs] at hsrc
    exact ⟨ht, hf, by rw [hs]; exact hsrc⟩
  | some i =>
    rw [hs] at hsrc
    by_cases he : i = p
    · simp only [if_pos he]
      exact ⟨ht, hf, trivial⟩
    · simp only [if_neg he]
      by_cases hlt : p < i
      · simp only [if_pos hlt]
        refine ⟨ht, hf, ?_⟩
        omega
      · simp only [if_neg hlt]
        refine ⟨ht, hf, ?_⟩
        rw [hs]
        push_cast
        omega

/-- Inserting a telescope preserves the per-scan property against the grown
telescope collection. -/
theorem scanOK_insertTel {nsrc ntel nfreq : Nat} (p : Int) (s : Scan)
    (h : Scan.indicesOK nsrc ntel nfreq s = true) :
    Scan.indicesOK nsrc (ntel + 1) nfreq
      { s with telescope_indices := updateIndicesInsert p s.telescope_indices } = true := by
  rw [scan_indicesOK_iff] at h ⊢
  obtain ⟨ht, hf, hsrc⟩ := h
  refine ⟨?_, hf, hsrc⟩
  intro i hi
  have := updateIndicesInsert_bounds ht i hi
  push_cast
  omega

/-- Inserting a frequency preserves the per-scan property against the grown
frequency collection. -/
theorem scanOK_insertFreq {nsrc ntel nfreq : Nat} (p : Int) (s : Scan)
    (h : Scan.indicesOK nsrc ntel nfreq s = true) :
    Scan.indicesOK nsrc ntel (nfreq + 1)
      { s with frequency_indices := updateIndicesInsert p s.frequency_indices } = true := by
  rw [scan_indicesOK_iff] at h ⊢
  obtain ⟨ht, hf, hsrc⟩ := h
  refine ⟨ht, ?_, hsrc⟩
  intro i hi
  have := updateIndicesInsert_bounds hf i hi
  push_cast
  omega

/-- Removing a telescope at an in-range non-negative position preserves the
per-scan property against the shrunk telescope collection. -/
theorem scanOK_removeTel {nsrc ntel nfreq : Nat} (p : Int) (s : Scan)
    (h : Scan.indicesOK nsrc ntel nfreq s = true) (hp : 0 ≤ p)
    (hpn : p < (ntel : Int)) :
    Scan.indicesOK nsrc (ntel - 1) nfreq
      { s with telescope_indices := updateIndicesRemove p s.telescope_indices } = true := by
  rw [scan_indicesOK_iff] at h ⊢
  obtain ⟨ht, hf, hsrc⟩ := h
  refine ⟨?_, hf, hsrc⟩
  intro i hi
  have := updateIndicesRemove_bounds ht hp hpn i hi
  omega

/-- Removing a frequency at an in-range non-negative position preserves the
per-scan property against the shrunk frequency collection. -/
theorem scanOK_removeFreq {nsrc ntel nfreq : Nat} (p : Int) (s : Scan)
    (h : Scan.indicesOK nsrc ntel nfreq s = true) (hp : 0 ≤ p)
    (hpn : p < (nfreq : Int)) :
    Scan.indicesOK nsrc ntel (nfreq - 1)
      { s with frequency_indices := updateIndicesRemove p s.frequency_indices } = true := by
  rw [scan_indicesOK_iff] at h ⊢
  obtain ⟨ht, hf, hsrc⟩ := h
  refine ⟨ht, ?_, hsrc⟩
  intro i hi
  have := updateIndicesRemove_bounds hf hp hpn i hi
  omega

/-- One structural operation with a non-negative removal position preserves
the no-orphan invariant. -/
theorem invariant_applyOp (obs : Observation) (op : ObsOp)
    (h : obs.indicesInvariant = true) (hop : op.removeNonneg = true) :
    (obs.applyOp op).indicesInvariant = true := by
  cases op with
  | insertSource src i =>
    show (obs.insert_source src i).indicesInvariant = true
    rw [indicesInvariant_iff] at h ⊢
    dsimp only [Observation.insert_source]
    rw [pyInsert_length]
    intro s2 hs2
    rw [List.mem_map] at hs2
    obtain ⟨s0, hs0, rfl⟩ := hs2
    exact scanOK_insertSource i s0 (h s0 hs0)
  | insertTelescope t i =>
    show (obs.insert_telescope t i).indicesInvariant = true
    rw [indicesInvariant_iff] at h ⊢
    dsimp only [Observation.insert_telescope]
    rw [pyInsert_length]
    intro s2 hs2
    rw [List.mem_map] at hs2
    obtain ⟨s0, hs0, rfl⟩ := hs2
    exact scanOK_insertTel i s0 (h s0 hs0)
  | insertFrequency f i =>
    show (obs.insert_frequency f i).indicesInvariant = true
    rw [indicesInvariant_iff] at h ⊢
    dsimp only [Observation.insert_frequency]
    rw [pyInsert_length]
    intro s2 hs2
    rw [List.mem_map] at hs2
    obtain ⟨s0, hs0, rfl⟩ := hs2
    exact scanOK_insertFreq i s0 (h s0 hs0)
  | removeSource i =>
    show (exceptToState obs (obs.remove_source i)).indicesInvariant = true
    cases hr : obs.remove_source i with
    | error e => exact h
    | ok obs2 =>
      unfold Observation.remove_source at hr
      cases hra : specRemoveAt obs.sources i with
      | error e =>
        rw [hra, except_error_bind] at hr
        exact Except.noConfusion hr
      | ok srcs =>
        rw [hra, except_ok_bind] at hr
        cases hr
        obtain ⟨h0, h1, rfl⟩ := specRemoveAt_ok hra
        rw [indicesInvariant_iff] at h ⊢
        dsimp only [exceptToState]
        rw [length_eraseIdx_int obs.sources i h0 h1]
        intro s2 hs2
        rw [List.mem_map] at hs2
        obtain ⟨s0, hs0, rfl⟩ := hs2
        exact scanOK_removeSource i s0 (h s0 hs0) h0 h1
  | removeTelescope i =>
    show (exceptToState obs (obs.remove_telescope i)).indicesInvariant = true
    cases hr : obs.remove_telescope i with
    | error e => exact h
    | ok obs2 =>
      unfold Observation.remove_telescope at hr
      cases hra : specRemoveAt obs.telescopes i with
      | error e =>
        rw [hra, except_error_bind] at hr
        exact Except.noConfusion hr
      | ok tels =>
        rw [hra, except_ok_bind] at hr
        cases hr
        obtain ⟨h0, h1, rfl⟩ := specRemoveAt_ok hra
        rw [indicesInvariant_iff] at h ⊢
        dsimp only [exceptToState]
        rw [length_eraseIdx_int obs.telescopes i h0 h1]
        intro s2 hs2
        rw [List.mem_map] at hs2
        obtain ⟨s0, hs0, rfl⟩ := hs2
        exact scanOK_removeTel i s0 (h s0 hs0) h0 h1
  | removeFrequency i =>
    have h0 : 0 ≤ i := by
      have := hop
      simp only [ObsOp.removeNonneg, decide_eq_true_eq] at this
      exact this
    show (exceptToState obs (obs.remove_frequency i)).indicesInvariant = true
    cases hr : obs.remove_frequency i with
    | error e => exact h
    | ok obs2 =>
      unfold Observation.remove_frequency at hr
      cases hra : Frequencies.remove_frequency obs.frequencies i with
      | error e =>
        rw [hra, except_error_bind] at hr
        exact Except.noConfusion hr
      | ok fs =>
        rw [hra, except_ok_bind] at hr
        cases hr
        obtain ⟨h1, rfl⟩ := pyPop_ok_of_nonneg hra h0
        rw [indicesInvariant_iff] at h ⊢
        dsimp only [exceptToState]
        rw [length_eraseIdx_int obs.frequencies i h0 h1]
        intro s2 hs2
        rw [List.mem_map] at hs2
        obtain ⟨s0, hs0, rfl⟩ := hs2
        exact scanOK_removeFreq i s0 (h s0 hs0) h0 h1

/-- The Observation of the C1 counterexample: all scan references valid, a
two-element frequency collection. -/
def obsC1 : Observation :=
  { observation_code := "OBS1", observation_type := "VLBI",
    sources := [⟨"A", true, true⟩], telescopes := [telA],
    frequencies := [⟨1000, 16, true⟩, ⟨2000, 16, true⟩],
    scans := [{ source_index := some 0, telescope_indices := [0],
                frequency_indices := [0], start := 0, duration := 10,
                is_off_source := false, isactive := true, validateOK := true,
                availabilityOK := true }],
    isactive := true, calculated_data := [], sefd := none }

/-- C1 counterexample: starting from an Observation whose scan references
are all valid, the single successful operation `remove_frequency(-1)`
(accepted by Python `pop`, it removes the last element) leaves the scan
holding frequency index `-1`: the walk decrements the index 0 because
`0 > -1`, so the scan now holds an index outside `[0, len)` that is not
cleared — the unrestricted claim fails. -/
theorem C1_negative_remove_breaks_invariant :
    obsC1.indicesInvariant = true ∧
    (obsC1.applyOps [ObsOp.removeFrequency (-1)]).indicesInvariant = false := by
  constructor <;> decide

/-- C1 amended: starting from an Observation in which every scan reference
is valid or explicitly cleared, after any sequence of
`insert_source/insert_telescope/insert_frequency/remove_source/
remove_telescope/remove_frequency` operations whose removal positions are
non-negative, every index referenced by every scan is again either a valid
position strictly below the current collection length or explicitly
cleared (`source_index = None` with `is_off_source = True`, or absent from
the index set) — no scan holds an out-of-range or dangling index. -/
theorem C1_no_orphan_references_amended (obs : Observation) (ops : List ObsOp)
    (h : obs.indicesInvariant = true)
    (hops : ∀ op ∈ ops, op.removeNonneg = true) :
    (obs.applyOps ops).indicesInvariant = true := by
  induction ops generalizing obs with
  | nil => exact h
  | cons op rest ih =>
    show (List.foldl Observation.applyOp obs (op :: rest)).indicesInvariant = true
    rw [List.foldl_cons]
    exact ih (obs.applyOp op)
      (invariant_applyOp obs op h (hops op (List.mem_cons_self op rest)))
      (fun o ho => hops o (List.mem_cons_of_mem op ho))

/-- C1 witness: the amended invariant evaluated over a concrete mixed
sequence of inserts and non-negative removes. -/
theorem C1_no_orphan_references_witness :
    (obsC1.applyOps
      [ObsOp.removeFrequency 0, ObsOp.insertTelescope telA 0,
       ObsOp.removeSource 0, ObsOp.insertFrequency ifA 1,
       ObsOp.removeTelescope 1]).indicesInvariant = true :=
  C1_no_orphan_references_amended obsC1 _ (by decide) (by decide)

end PvCore
